import Mathlib

/-!
Verification of the gesture-controlled space-invaders game
(`cv_controller.py` and `main_game.py`).

The Python source is shallowly embedded: Python floats become exact
rationals `ℚ`, pygame integer rectangle coordinates become `ℤ`, Python
`int()` truncation toward zero is `ratTrunc`, and the random draws of
the source (spawn jitter, the enemy-fire dice roll and shooter choice)
become explicit oracle parameters.  Fallible values (`None` in Python)
become `Option`.
-/

namespace GSI

/-! ## Constants (module-level constants of the two Python files) -/

def WIDTH : ℤ := 900
def HEIGHT : ℤ := 700
def MAX_DT : ℚ := 1/20          -- 0.05 s
def MAX_MOVE_PER_FRAME : ℚ := 12
def DEADZONE : ℚ := 3/100       -- 0.03
def SMOOTHING_ALPHA : ℚ := 7/20 -- 0.35
def PINCH_THRESHOLD : ℚ := 3/50 -- 0.06
def MIN_CONFIDENCE : ℚ := 1/2   -- 0.5
def PLAYER_COOLDOWN : ℚ := 8/25 -- Player.cooldown = 0.32 s

/-- Python `int(q)`: truncation toward zero. -/
def ratTrunc (q : ℚ) : ℤ := if 0 ≤ q then ⌊q⌋ else ⌈q⌉

/-! ## cv_controller.py -/

/-- `CVController.smooth_pos(prev, new, alpha)`. -/
def smooth_pos (prev : Option ℚ) (new : ℚ) (alpha : ℚ := SMOOTHING_ALPHA) : ℚ :=
  match prev with
  | none => new
  | some p => p * (1 - alpha) + new * alpha

/-- `CVController.in_deadzone(center, value, dz)`. -/
def in_deadzone (center value : ℚ) (dz : ℚ := DEADZONE) : Bool :=
  decide (|value - center| < dz)

/-- The smoothing/deadzone block of `CVController._run` for a detected
hand whose clamped landmark x is `rawX`: first-sample initialisation of
`_prev_x`, deadzone test, exponential smoothing.  Returns the new
`_prev_x`, which is also the published `_x_norm`. -/
def smoothUpdate (prevX : Option ℚ) (rawX : ℚ) : ℚ :=
  let p : ℚ := match prevX with
    | none => rawX           -- if self._prev_x is None: self._prev_x = x_norm
    | some p => p
  if in_deadzone p rawX then p else smooth_pos (some p) rawX

/-- One raw hand detection, as `_run` consumes it: the x coordinate of
landmark 9 and the thumb-tip / index-tip landmark coordinates. -/
structure Detection where
  lm9x : ℚ
  thumbX : ℚ
  thumbY : ℚ
  indexX : ℚ
  indexY : ℚ
deriving DecidableEq, Repr

/-- The control sample published under the lock in `_run`
(the preview image is out of scope). -/
structure Published where
  x_norm : Option ℚ
  shoot : Bool
  confidence : ℚ
deriving DecidableEq, Repr

/-- One iteration of `CVController._run` on an acquired frame, with the
detector result as input: returns the published sample and the new
`_prev_x`.  The pinch test `np.hypot(dx, dy) < PINCH_THRESHOLD` is
embedded squared (`dx² + dy² < PINCH_THRESHOLD²`), which is equivalent
since both sides are nonnegative. -/
def processFrame (prevX : Option ℚ) (det : Option Detection) :
    Published × Option ℚ :=
  match det with
  | none => (⟨none, false, 0⟩, prevX)
  | some d =>
      let rawX : ℚ := max 0 (min 1 d.lm9x)
      let distSq : ℚ := (d.thumbX - d.indexX)^2 + (d.thumbY - d.indexY)^2
      let conf : ℚ := 1
      let shoot : Bool :=
        decide (distSq < PINCH_THRESHOLD^2) && decide (conf > MIN_CONFIDENCE)
      let p : ℚ := smoothUpdate prevX rawX
      (⟨some p, shoot, conf⟩, some p)

/-! ## main_game.py: geometry -/

/-- A pygame `Rect` (integer coordinates). -/
structure Rect where
  x : ℤ
  y : ℤ
  w : ℤ
  h : ℤ
deriving DecidableEq, Repr

/-- pygame `Rect.colliderect`: strict overlap on both axes
(zero-width/height rects never collide). -/
def colliderect (a b : Rect) : Bool :=
  decide (a.x < b.x + b.w) && decide (b.x < a.x + a.w) &&
  decide (a.y < b.y + b.h) && decide (b.y < a.y + a.h)

/-- `Bullet`: its rect and vertical velocity (`vel=-7` for the player,
`vel=4` for enemies).  The bullet sprite is always the 6×12 scaled
surface, so `img.get_rect(center=(x, y))` gives `(x-3, y-6, 6, 12)`. -/
structure Bullet where
  rect : Rect
  vel : ℤ
deriving DecidableEq, Repr

/-- `Bullet.__init__(x, y, vel)` with the 6×12 bullet image. -/
def mkBullet (x y vel : ℤ) : Bullet :=
  ⟨⟨x - 3, y - 6, 6, 12⟩, vel⟩

/-- `Bullet.update`: `self.rect.y += self.vel`. -/
def Bullet.update (b : Bullet) : Bullet :=
  { b with rect := { b.rect with y := b.rect.y + b.vel } }

/-- `Enemy`: authoritative float position plus the derived integer rect. -/
structure Enemy where
  float_x : ℚ
  float_y : ℚ
  rect : Rect
  alive : Bool
deriving DecidableEq, Repr

/-! ## main_game.py: Player.move_to -/

/-- `Player.move_to(x_norm)`: `None` leaves the position unchanged,
otherwise `centerx = max(20, min(WIDTH-20, int(x_norm*WIDTH)))`. -/
def move_to (centerx : ℤ) (x_norm : Option ℚ) : ℤ :=
  match x_norm with
  | none => centerx
  | some x => max 20 (min (WIDTH - 20) (ratTrunc (x * (WIDTH : ℚ))))

/-! ## main_game.py: Game.update_enemies (deterministic formation part) -/

/-- The per-frame enemy move in pixels: cap `dt` to `MAX_DT`, compute
`enemy_speed * dt * enemy_dir`, then clamp the magnitude to
`MAX_MOVE_PER_FRAME`. -/
def movePx (speed dt : ℚ) (dir : ℤ) : ℚ :=
  let dtc := min dt MAX_DT
  let m := speed * dtc * (dir : ℚ)
  if |m| > MAX_MOVE_PER_FRAME then
    MAX_MOVE_PER_FRAME * (if m > 0 then 1 else -1)
  else m

/-- The edge test of `update_enemies`: some living enemy's prospective
position crosses a screen margin. -/
def willHitEdge (move : ℚ) (es : List Enemy) : Bool :=
  es.any (fun e =>
    e.alive &&
      (decide (e.float_x + move + (e.rect.w : ℚ) ≥ (WIDTH : ℚ) - 10) ||
       decide (e.float_x + move ≤ 10)))

/-- The drop branch applied to one enemy: living enemies drop 12 px. -/
def dropEnemy (e : Enemy) : Enemy :=
  if e.alive then
    { e with float_y := e.float_y + 12,
             rect := { e.rect with y := ratTrunc (e.float_y + 12) } }
  else e

/-- The march branch applied to one enemy: living enemies shift by `move`. -/
def shiftEnemy (move : ℚ) (e : Enemy) : Enemy :=
  if e.alive then
    { e with float_x := e.float_x + move,
             rect := { e.rect with x := ratTrunc (e.float_x + move) } }
  else e

/-- The deterministic movement part of `Game.update_enemies(dt)`:
returns the updated enemies and the (possibly negated) direction.
The trailing random enemy-fire block is modelled separately in the
tick (`enemyFire`). -/
def stepFormation (dt speed : ℚ) (dir : ℤ) (es : List Enemy) :
    List Enemy × ℤ :=
  if es = [] then (es, dir)
  else
    let move := movePx speed dt dir
    if willHitEdge move es then (es.map dropEnemy, -dir)
    else (es.map (shiftEnemy move), dir)

/-! ## main_game.py: Game.spawn_wave -/

/-- `Game.spawn_wave(level)` without its jitter: one enemy at grid slot
`(r, c)`, all spawned alive.  `ew`/`eh` are the enemy sprite's width and
height (40×30 for the fallback surface). -/
def gridEnemy (ew eh : ℤ) (r c : ℕ) : Enemy :=
  let x : ℤ := 80 + (c : ℤ) * 70
  let y : ℤ := 50 + (r : ℤ) * 55
  { float_x := (x : ℚ), float_y := (y : ℚ),
    rect := ⟨x, y, ew, eh⟩, alive := true }

/-- The post-spawn jitter loop of `spawn_wave`:
`e.float_x += uniform(-1.5, 1.5); e.rect.x = int(e.float_x)`, with the
random draws supplied by the oracle `jit` (indexed by position in the
enemies list). -/
def applyJitter (jit : ℕ → ℚ) (es : List Enemy) : List Enemy :=
  (List.range es.length).zip es |>.map (fun p =>
    let e := p.2
    let fx := e.float_x + jit p.1
    { e with float_x := fx, rect := { e.rect with x := ratTrunc fx } })

/-- `Game.spawn_wave(level)`: `rows = 3 + (level-1)//2`, `cols = 7`,
grid layout, then per-enemy jitter.  (The direction and speed it also
sets are returned by `waveCheck` / `reset`.) -/
def spawn_wave (ew eh : ℤ) (jit : ℕ → ℚ) (level : ℕ) : List Enemy :=
  let rows := 3 + (level - 1) / 2
  let cols := 7
  applyJitter jit
    ((List.range rows).flatMap (fun r =>
      (List.range cols).map (fun c => gridEnemy ew eh r c)))

/-- `self.enemy_speed = 45 + (level - 1) * 8` set by `spawn_wave`. -/
def waveSpeed (level : ℕ) : ℚ := 45 + ((level : ℚ) - 1) * 8

/-! ## main_game.py: Game.collision_checks -/

/-- The inner loop of `collision_checks` for one player bullet: kill the
first living enemy whose rect collides with the bullet's; `none` when no
living enemy collides. -/
def killFirst (b : Rect) : List Enemy → Option (List Enemy)
  | [] => none
  | e :: rest =>
      if e.alive && colliderect b e.rect then
        some ({ e with alive := false } :: rest)
      else (killFirst b rest).map (e :: ·)

/-- The player-bullet half of `collision_checks`: each bullet kills at
most its first living colliding enemy, is then removed, and scores 10. -/
def collidePlayerBullets :
    List Bullet → List Enemy → ℤ → List Bullet × List Enemy × ℤ
  | [], es, score => ([], es, score)
  | b :: rest, es, score =>
      match killFirst b.rect es with
      | some es1 => collidePlayerBullets rest es1 (score + 10)
      | none =>
          let r := collidePlayerBullets rest es score
          (b :: r.1, r.2.1, r.2.2)

/-- The enemy-bullet half of `collision_checks` together with
`Game.game_over`: each colliding bullet is removed and costs one life;
when lives reach 0, `game_over()` sets `game_over_flag` and pauses.
Returns (remaining enemy bullets, lives, game_over_flag, paused). -/
def collideEnemyBullets (player : Rect) :
    List Bullet → ℤ → Bool → Bool → List Bullet × ℤ × Bool × Bool
  | [], lives, flag, paused => ([], lives, flag, paused)
  | b :: rest, lives, flag, paused =>
      if colliderect b.rect player then
        let lives1 := lives - 1
        if lives1 ≤ 0 then collideEnemyBullets player rest lives1 true true
        else collideEnemyBullets player rest lives1 flag paused
      else
        let r := collideEnemyBullets player rest lives flag paused
        (b :: r.1, r.2.1, r.2.2.1, r.2.2.2)

/-! ## main_game.py: wave advance in Game.run -/

/-- `es.all (fun e => !e.alive)`: the clear condition
`all(not e.alive for e in self.enemies)` tested at the end of each
tick. -/
def allDead (es : List Enemy) : Bool := es.all (fun e => !e.alive)

/-- The wave-advance block at the end of `Game.run`'s loop body:
on clear, `level += 1` and `spawn_wave(level)` (which also resets
`enemy_dir = 1` and recomputes `enemy_speed`). -/
def waveCheck (ew eh : ℤ) (jit : ℕ → ℚ) (level : ℕ) (es : List Enemy)
    (dir : ℤ) (speed : ℚ) : ℕ × List Enemy × ℤ × ℚ :=
  if allDead es then
    (level + 1, spawn_wave ew eh jit (level + 1), 1, waveSpeed (level + 1))
  else (level, es, dir, speed)

/-! ## main_game.py: Game state and events -/

/-- The mutable fields of `Game` (and its `Player`) that the simulation
loop touches.  `playerCx` is `player.rect.centerx`; the player rect is
100×66 with `midbottom = (centerx, HEIGHT - 30)`. -/
structure GameState where
  lives : ℤ
  score : ℤ
  level : ℕ
  bullets : List Bullet
  enemyBullets : List Bullet
  enemies : List Enemy
  enemyDir : ℤ
  enemySpeed : ℚ
  paused : Bool
  gameOverFlag : Bool
  playerCx : ℤ
  lastShot : ℚ
deriving DecidableEq, Repr

/-- The player's 100×66 rect with `midbottom = (centerx, HEIGHT - 30)`. -/
def playerRect (centerx : ℤ) : Rect :=
  ⟨centerx - 50, HEIGHT - 30 - 66, 100, 66⟩

/-- `Player.can_shoot`: `time.time() - self._last_shot >= self.cooldown`. -/
def can_shoot (now lastShot : ℚ) : Bool :=
  decide (now - lastShot ≥ PLAYER_COOLDOWN)

/-- A player bullet spawned at `(centerx, player.rect.top - 6)` with
`vel = -7`, as in both fire paths of the source. -/
def playerBullet (centerx : ℤ) : Bullet :=
  mkBullet centerx (HEIGHT - 30 - 66 - 6) (-7)

/-- The `K_SPACE` branch of `Game.handle_events`: fires only when the CV
controller is disabled and the cooldown has elapsed.  Returns the new
bullet list and `_last_shot`. -/
def handleSpace (cvEnabled : Bool) (now lastShot : ℚ) (bullets : List Bullet)
    (centerx : ℤ) : List Bullet × ℚ :=
  if !cvEnabled && can_shoot now lastShot then
    (bullets ++ [playerBullet centerx], now)
  else (bullets, lastShot)

/-- The gesture-fire step of `Game.run`: `if shoot and
self.player.can_shoot()`, spawn a bullet and reset the cooldown timer. -/
def fireStep (shoot : Bool) (now lastShot : ℚ) (bullets : List Bullet)
    (centerx : ℤ) : List Bullet × ℚ :=
  if shoot && can_shoot now lastShot then
    (bullets ++ [playerBullet centerx], now)
  else (bullets, lastShot)

/-- The random enemy-fire block at the end of `update_enemies`: with the
dice roll `efire` already decided by the oracle, pick a living enemy
(`pick` indexes into the shooters uniformly chosen by the source) and
append its bullet at `(centerx, bottom + 8)` with `vel = 4`. -/
def enemyFire (efire : Bool) (pick : ℕ) (es : List Enemy)
    (ebs : List Bullet) : List Bullet :=
  if efire then
    let shooters := es.filter (·.alive)
    match shooters with
    | [] => ebs
    | s0 :: rest =>
        let s := (s0 :: rest).getD (pick % (rest.length + 1)) s0
        ebs ++ [mkBullet (s.rect.x + s.rect.w / 2) (s.rect.y + s.rect.h + 8) 4]
  else ebs

/-- `Game.handle_events`' `K_p` branch: `self.paused = not self.paused`. -/
def togglePause (gs : GameState) : GameState :=
  { gs with paused := !gs.paused }

/-- `Game.reset`: fresh player (3 lives, cooldown timer 0, centred),
score 0, level 1, both bullet lists cleared, first wave respawned,
flags cleared. -/
def reset (ew eh : ℤ) (jit : ℕ → ℚ) (gs : GameState) : GameState :=
  { gs with
    lives := 3, score := 0, level := 1,
    bullets := [], enemyBullets := [],
    enemies := spawn_wave ew eh jit 1,
    enemyDir := 1, enemySpeed := waveSpeed 1,
    paused := false, gameOverFlag := false,
    playerCx := WIDTH / 2, lastShot := 0 }

/-- One iteration of `Game.run`'s loop body after event handling, with
the control sample `(xn, shoot)` already read, the wall clock `now`, and
the enemy-fire random oracle `(efire, pick)`.  While paused the body is
skipped entirely (`continue`). -/
def tick (ew eh : ℤ) (jit : ℕ → ℚ) (gs : GameState) (dt : ℚ)
    (xn : Option ℚ) (shoot : Bool) (now : ℚ) (efire : Bool) (pick : ℕ) :
    GameState :=
  if gs.paused then gs
  else
    let cx := move_to gs.playerCx xn
    let fired := fireStep shoot now gs.lastShot gs.bullets cx
    let bs := (fired.1.map Bullet.update).filter
      (fun b => !decide (b.rect.y + b.rect.h < 0))
    let ebs := (gs.enemyBullets.map Bullet.update).filter
      (fun b => !decide (b.rect.y > HEIGHT))
    let moved := stepFormation (min dt MAX_DT) gs.enemySpeed gs.enemyDir gs.enemies
    let ebs1 := enemyFire efire pick moved.1 ebs
    let pc := collidePlayerBullets bs moved.1 gs.score
    let ec := collideEnemyBullets (playerRect cx) ebs1 gs.lives
      gs.gameOverFlag gs.paused
    let wc := waveCheck ew eh jit gs.level pc.2.1 moved.2 gs.enemySpeed
    { lives := ec.2.1, score := pc.2.2, level := wc.1,
      bullets := pc.1, enemyBullets := ec.1,
      enemies := wc.2.1, enemyDir := wc.2.2.1, enemySpeed := wc.2.2.2,
      paused := ec.2.2.2, gameOverFlag := ec.2.2.1,
      playerCx := cx, lastShot := fired.2 }

/-! ## Theorems -/

/-- C2: for every tick and every `dt ≥ 0`, the effective horizontal
enemy movement computed by `update_enemies` — cap `dt` to `MAX_DT`,
compute `direction * speed * dt`, then clamp — has magnitude at most
`MAX_MOVE_PER_FRAME` (12 px), regardless of `dt` or enemy speed. -/
theorem enemy_move_clamped (speed dt : ℚ) (dir : ℤ) (_h : 0 ≤ dt) :
    |movePx speed dt dir| ≤ MAX_MOVE_PER_FRAME := by
  unfold movePx
  by_cases hgt : |speed * min dt MAX_DT * (dir : ℚ)| > MAX_MOVE_PER_FRAME
  · simp only [hgt, if_true]
    by_cases hpos : speed * min dt MAX_DT * (dir : ℚ) > 0
    · simp only [hpos, if_true]
      norm_num [MAX_MOVE_PER_FRAME]
    · simp only [hpos, if_false]
      norm_num [MAX_MOVE_PER_FRAME]
  · simp only [hgt, if_false]
    exact le_of_not_lt hgt

/-- Witness for C2: a huge speed spike (speed 1000 px/s, dt 1 s) still
moves at most 12 px. -/
theorem enemy_move_clamped_witness :
    (0 : ℚ) ≤ 1 ∧ |movePx 1000 1 1| ≤ MAX_MOVE_PER_FRAME :=
  ⟨by norm_num, enemy_move_clamped 1000 1 1 (by norm_num)⟩

/-- C4: the per-frame smoothing/deadzone update for a detected hand:
first sample passes through; a raw value within `DEADZONE` of
`previous_x` leaves it unchanged; otherwise the exponential low-pass
`previous_x*(1-ALPHA) + raw_x*ALPHA` with `ALPHA = 0.35` applies; the
published `x_norm` equals the resulting `previous_x`; and the spec's
concrete examples `smooth(absent, 0.7) = 0.7` and
`smooth(0.2, 0.8, alpha=0.5) = 0.5` hold. -/
theorem smoothing_law (rawX p : ℚ) (pX : Option ℚ) (d : Detection) :
    smoothUpdate none rawX = rawX
  ∧ (|rawX - p| < DEADZONE → smoothUpdate (some p) rawX = p)
  ∧ (¬ |rawX - p| < DEADZONE →
      smoothUpdate (some p) rawX =
        p * (1 - SMOOTHING_ALPHA) + rawX * SMOOTHING_ALPHA)
  ∧ (processFrame pX (some d)).1.x_norm = (processFrame pX (some d)).2
  ∧ (processFrame pX (some d)).2 =
      some (smoothUpdate pX (max 0 (min 1 d.lm9x)))
  ∧ smooth_pos none (7/10) = 7/10
  ∧ smooth_pos (some (1/5)) (4/5) (1/2) = 1/2 := by
  refine ⟨?_, ?_, ?_, rfl, rfl, rfl, by norm_num [smooth_pos]⟩
  · simp [smoothUpdate, in_deadzone, DEADZONE]
  · intro hdz
    simp [smoothUpdate, in_deadzone, hdz]
  · intro hdz
    simp [smoothUpdate, in_deadzone, hdz, smooth_pos]

/-- Witness for C4: a 0.01 jitter (below the 0.03 deadzone) is ignored,
and a 0.6 jump is low-pass filtered with `ALPHA = 0.35`. -/
theorem smoothing_law_witness :
    smoothUpdate (some (1/2)) (51/100) = 1/2
  ∧ smoothUpdate (some (1/5)) (4/5) =
      (1/5) * (1 - SMOOTHING_ALPHA) + (4/5) * SMOOTHING_ALPHA :=
  ⟨(smoothing_law (51/100) (1/2) none ⟨0, 0, 0, 0, 0⟩).2.1
      (by norm_num [DEADZONE, abs_lt]),
   (smoothing_law (4/5) (1/5) none ⟨0, 0, 0, 0, 0⟩).2.2.1
      (by norm_num [DEADZONE, abs_lt])⟩

/-- C8: on an acquired frame with no hand detected, `_run` publishes
exactly `(x_norm = None, shoot = False, confidence = 0.0)` and leaves
`_prev_x` untouched. -/
theorem no_hand_frame_effect (prevX : Option ℚ) :
    (processFrame prevX none).1.x_norm = none
  ∧ (processFrame prevX none).1.shoot = false
  ∧ (processFrame prevX none).1.confidence = 0
  ∧ (processFrame prevX none).2 = prevX :=
  ⟨rfl, rfl, rfl, rfl⟩

/-- C9: after any `Player.move_to`, the player's `centerx` lies in
`[20, WIDTH - 20]`; an absent `x_norm` leaves the position unchanged
(hence in bounds whenever it already was), and any present `x_norm`
lands in bounds unconditionally. -/
theorem move_to_bounds (cx : ℤ) (xn : Option ℚ)
    (h1 : 20 ≤ cx) (h2 : cx ≤ WIDTH - 20) :
    (20 ≤ move_to cx xn ∧ move_to cx xn ≤ WIDTH - 20)
  ∧ move_to cx none = cx
  ∧ ∀ x : ℚ, 20 ≤ move_to cx (some x) ∧ move_to cx (some x) ≤ WIDTH - 20 := by
  have key : ∀ x : ℚ,
      20 ≤ move_to cx (some x) ∧ move_to cx (some x) ≤ WIDTH - 20 := by
    intro x
    constructor
    · exact le_max_left _ _
    · exact max_le (by norm_num [WIDTH]) (min_le_left _ _)
  refine ⟨?_, rfl, key⟩
  cases xn with
  | none => exact ⟨h1, h2⟩
  | some x => exact key x

/-- Witness for C9: a centred player moved with `x_norm = 2` (far past
the right edge) is clamped into `[20, 880]`. -/
theorem move_to_bounds_witness :
    ((20 : ℤ) ≤ move_to 450 (some 2) ∧ move_to 450 (some 2) ≤ WIDTH - 20)
  ∧ move_to 450 none = 450
  ∧ ∀ x : ℚ, 20 ≤ move_to 450 (some x) ∧ move_to 450 (some x) ≤ WIDTH - 20 :=
  move_to_bounds 450 (some 2) (by norm_num) (by norm_num [WIDTH])

/-- C10: with the CV controller enabled, the space-bar branch of
`handle_events` never spawns a bullet; and the gesture-fire path of
`run` spawns a bullet exactly when the fire flag is set and the
cooldown has elapsed. -/
theorem cv_fire_gating (now lastShot : ℚ) (bullets : List Bullet)
    (cx : ℤ) (shoot : Bool) :
    handleSpace true now lastShot bullets cx = (bullets, lastShot)
  ∧ (can_shoot now lastShot = false →
      fireStep shoot now lastShot bullets cx = (bullets, lastShot))
  ∧ (shoot = false →
      fireStep shoot now lastShot bullets cx = (bullets, lastShot))
  ∧ (shoot = true → can_shoot now lastShot = true →
      fireStep shoot now lastShot bullets cx =
        (bullets ++ [playerBullet cx], now)) := by
  refine ⟨?_, ?_, ?_, ?_⟩
  · simp [handleSpace]
  · intro hcs; simp [fireStep, hcs]
  · intro hs; simp [fireStep, hs]
  · intro hs hcs; simp [fireStep, hs, hcs]

/-- Witness for C10: concrete clock values — with CV enabled the space
bar adds nothing; a gesture fire with elapsed cooldown adds exactly one
bullet. -/
theorem cv_fire_gating_witness :
    handleSpace true 1 0 [] 450 = ([], 0)
  ∧ fireStep true 1 0 [] 450 = ([] ++ [playerBullet 450], 1) :=
  ⟨(cv_fire_gating 1 0 [] 450 true).1,
   (cv_fire_gating 1 0 [] 450 true).2.2.2 rfl
      (by norm_num [can_shoot, PLAYER_COOLDOWN])⟩

/-- C3: on a formation-step tick, if some living enemy's prospective
position would cross a screen margin (`new_x + width ≥ WIDTH - 10` or
`new_x ≤ 10`), no enemy's float x changes, every living enemy's float y
grows by exactly 12, and the direction is negated; otherwise every
living enemy's float x grows by the same clamped move value and float y
is unchanged.  Dead enemies are untouched in both cases. -/
theorem formation_step_spec (dt speed : ℚ) (dir : ℤ) (es : List Enemy)
    (i : ℕ) (hi : i < es.length) :
    (willHitEdge (movePx speed dt dir) es = true →
       (stepFormation dt speed dir es).2 = -dir
     ∧ (stepFormation dt speed dir es).1[i]? = some (dropEnemy es[i]))
  ∧ (willHitEdge (movePx speed dt dir) es = false →
       (stepFormation dt speed dir es).2 = dir
     ∧ (stepFormation dt speed dir es).1[i]? =
         some (shiftEnemy (movePx speed dt dir) es[i]))
  ∧ (∀ e : Enemy, (dropEnemy e).float_x = e.float_x
      ∧ (e.alive = true → (dropEnemy e).float_y = e.float_y + 12)
      ∧ (e.alive = false → dropEnemy e = e))
  ∧ (∀ (m : ℚ) (e : Enemy),
        (e.alive = true → (shiftEnemy m e).float_x = e.float_x + m
          ∧ (shiftEnemy m e).float_y = e.float_y)
      ∧ (e.alive = false → shiftEnemy m e = e)) := by
  have hne : es ≠ [] := by
    intro h
    rw [h] at hi
    simp at hi
  refine ⟨?_, ?_, ?_, ?_⟩
  · intro hedge
    simp [stepFormation, hne, hedge, List.getElem?_eq_getElem hi]
  · intro hedge
    simp [stepFormation, hne, hedge, List.getElem?_eq_getElem hi]
  · intro e
    refine ⟨?_, ?_, ?_⟩
    · by_cases ha : e.alive <;> simp [dropEnemy, ha]
    · intro ha; simp [dropEnemy, ha]
    · intro ha; simp [dropEnemy, ha]
  · intro m e
    constructor
    · intro ha; simp [shiftEnemy, ha]
    · intro ha; simp [shiftEnemy, ha]

/-- Witness for C3: one living enemy at x = 80 marching right at
45 px/s with dt = 0.01 s does not reach a margin, so it shifts by
0.45 px and the direction stays `1`. -/
theorem formation_step_spec_witness :
    (stepFormation (1/100) 45 1 [⟨80, 50, ⟨80, 50, 40, 30⟩, true⟩]).2 = 1
  ∧ (stepFormation (1/100) 45 1 [⟨80, 50, ⟨80, 50, 40, 30⟩, true⟩]).1[0]? =
      some (shiftEnemy (movePx 45 (1/100) 1)
        ⟨80, 50, ⟨80, 50, 40, 30⟩, true⟩) :=
  (formation_step_spec (1/100) 45 1 [⟨80, 50, ⟨80, 50, 40, 30⟩, true⟩] 0
      (by simp)).2.1
    (by norm_num [willHitEdge, movePx, MAX_DT, MAX_MOVE_PER_FRAME, WIDTH,
      min_def, abs])

/-- `killFirst` finds the first living colliding enemy and only marks
that one dead. -/
lemma killFirst_eq (b : Rect) (es : List Enemy)
    (h : ∃ e ∈ es, e.alive = true ∧ colliderect b e.rect = true) :
    ∃ i, ∃ hi : i < es.length,
      es[i].alive = true
    ∧ colliderect b es[i].rect = true
    ∧ (∀ j, ∀ _hj : j < es.length, j < i →
        ¬(es[j].alive = true ∧ colliderect b es[j].rect = true))
    ∧ killFirst b es = some (es.set i { es[i] with alive := false }) := by
  induction es with
  | nil => simp at h
  | cons e rest ih =>
      by_cases hc : e.alive && colliderect b e.rect
      · have hc' : e.alive = true ∧ colliderect b e.rect = true := by
          simpa using hc
        refine ⟨0, by simp, ?_, ?_, ?_, ?_⟩
        · simpa using hc'.1
        · simpa using hc'.2
        · intro j _ hj0
          omega
        · simp [killFirst, hc, List.set]
      · obtain ⟨e1, he1, ha1, hc1⟩ := h
        rcases List.mem_cons.mp he1 with rfl | hmem
        · exact absurd (show (e1.alive && colliderect b e1.rect) = true by
            simp [ha1, hc1]) hc
        · obtain ⟨i, hi, hia, hic, hfirst, hkf⟩ := ih ⟨e1, hmem, ha1, hc1⟩
          refine ⟨i + 1, by simpa using Nat.succ_lt_succ hi, ?_, ?_, ?_, ?_⟩
          · simpa using hia
          · simpa using hic
          · intro j hj hji
            cases j with
            | zero =>
                intro hbad
                simp at hbad
                exact hc (by simp [hbad.1, hbad.2])
            | succ j' =>
                have hj' : j' < rest.length := by simpa using Nat.lt_of_succ_lt_succ hj
                have := hfirst j' hj' (Nat.lt_of_succ_lt_succ hji)
                simpa using this
          · simp [killFirst, hc, hkf, List.set]

/-- C6: in one collision tick, a player bullet overlapping some living
enemy kills exactly the first living enemy (in list order) whose rect
it overlaps, is removed from the bullet list, and raises the score by
exactly 10; every other enemy is untouched (`List.set` at one index). -/
theorem player_bullet_collision (b : Bullet) (es : List Enemy) (score : ℤ)
    (h : ∃ e ∈ es, e.alive = true ∧ colliderect b.rect e.rect = true) :
    ∃ i, ∃ hi : i < es.length,
      es[i].alive = true
    ∧ colliderect b.rect es[i].rect = true
    ∧ (∀ j, ∀ _hj : j < es.length, j < i →
        ¬(es[j].alive = true ∧ colliderect b.rect es[j].rect = true))
    ∧ collidePlayerBullets [b] es score =
        ([], es.set i { es[i] with alive := false }, score + 10) := by
  obtain ⟨i, hi, hia, hic, hfirst, hkf⟩ := killFirst_eq b.rect es h
  exact ⟨i, hi, hia, hic, hfirst, by simp [collidePlayerBullets, hkf]⟩

/-- Witness for C6: a bullet centred on a lone living 40×30 enemy kills
it, disappears, and scores 10. -/
theorem player_bullet_collision_witness :
    ∃ i, ∃ hi : i < ([⟨80, 50, ⟨80, 50, 40, 30⟩, true⟩] : List Enemy).length,
      ([⟨80, 50, ⟨80, 50, 40, 30⟩, true⟩] : List Enemy)[i].alive = true
    ∧ colliderect (mkBullet 100 60 (-7)).rect
        ([⟨80, 50, ⟨80, 50, 40, 30⟩, true⟩] : List Enemy)[i].rect = true
    ∧ (∀ j, ∀ _hj : j < ([⟨80, 50, ⟨80, 50, 40, 30⟩, true⟩] : List Enemy).length,
        j < i →
        ¬(([⟨80, 50, ⟨80, 50, 40, 30⟩, true⟩] : List Enemy)[j].alive = true
          ∧ colliderect (mkBullet 100 60 (-7)).rect
              ([⟨80, 50, ⟨80, 50, 40, 30⟩, true⟩] : List Enemy)[j].rect = true))
    ∧ collidePlayerBullets [mkBullet 100 60 (-7)]
        [⟨80, 50, ⟨80, 50, 40, 30⟩, true⟩] 0 =
        ([], ([⟨80, 50, ⟨80, 50, 40, 30⟩, true⟩] : List Enemy).set 0
          { (⟨80, 50, ⟨80, 50, 40, 30⟩, true⟩ : Enemy) with alive := false },
          0 + 10) := by
  have h := player_bullet_collision (mkBullet 100 60 (-7))
    [⟨80, 50, ⟨80, 50, 40, 30⟩, true⟩] 0
    ⟨⟨80, 50, ⟨80, 50, 40, 30⟩, true⟩, by simp, rfl, by decide⟩
  obtain ⟨i, hi, rest⟩ := h
  have hi1 : i < 1 := by simpa using hi
  have hi0 : i = 0 := by omega
  subst hi0
  exact ⟨0, hi, rest⟩

/-- Jittering a wave does not change how many enemies it has. -/
lemma applyJitter_length (jit : ℕ → ℚ) (es : List Enemy) :
    (applyJitter jit es).length = es.length := by
  simp [applyJitter]

/-- `spawn_wave` spawns `rows * cols` enemies with
`rows = 3 + (level-1)//2` and `cols = 7`. -/
lemma spawn_wave_length (ew eh : ℤ) (jit : ℕ → ℚ) (level : ℕ) :
    (spawn_wave ew eh jit level).length = (3 + (level - 1) / 2) * 7 := by
  simp [spawn_wave, applyJitter_length, List.length_flatMap,
    Function.comp_def]

/-- Every enemy of a fresh wave is alive. -/
lemma spawn_wave_alive (ew eh : ℤ) (jit : ℕ → ℚ) (level : ℕ) :
    ∀ e ∈ spawn_wave ew eh jit level, e.alive = true := by
  intro e he
  simp only [spawn_wave, applyJitter, List.mem_map] at he
  obtain ⟨p, hp, rfl⟩ := he
  have hp2 := (List.of_mem_zip hp).2
  simp only [List.mem_flatMap, List.mem_map, List.mem_range] at hp2
  obtain ⟨r, _, c, _, heq⟩ := hp2
  rw [← heq]
  rfl

/-- A fresh wave is never already cleared. -/
lemma spawn_wave_not_dead (ew eh : ℤ) (jit : ℕ → ℚ) (level : ℕ) :
    allDead (spawn_wave ew eh jit level) = false := by
  have hlen : (spawn_wave ew eh jit level).length = (3 + (level - 1) / 2) * 7 :=
    spawn_wave_length ew eh jit level
  have hne : spawn_wave ew eh jit level ≠ [] := by
    intro h
    rw [h] at hlen
    simp at hlen
  obtain ⟨e, he⟩ := List.exists_mem_of_ne_nil _ hne
  have halive := spawn_wave_alive ew eh jit level e he
  cases hd : allDead (spawn_wave ew eh jit level) with
  | false => rfl
  | true =>
      have := List.all_eq_true.mp hd e he
      rw [halive] at this
      simp at this

/-- C5 (amended): the level advances by exactly 1 exactly when every
enemy of the current formation is dead, spawning one fresh wave with
`rows = 3 + (level-1)//2`, `cols = 7`, direction 1 and
`speed = 45 + (level-1)*8`; the fresh wave is not itself cleared, so
the advance does not repeat on the next tick.  Clearing level 1 yields
level 2 with `(3 + (2-1)//2) * 7 = 21` enemies (not 28: rows stays 3
until level 3). -/
theorem wave_advance (ew eh : ℤ) (jit : ℕ → ℚ) (level : ℕ)
    (es : List Enemy) (dir : ℤ) (speed : ℚ) :
    (allDead es = true →
       waveCheck ew eh jit level es dir speed =
         (level + 1, spawn_wave ew eh jit (level + 1), 1,
           waveSpeed (level + 1)))
  ∧ (allDead es = false →
       waveCheck ew eh jit level es dir speed = (level, es, dir, speed))
  ∧ (spawn_wave ew eh jit (level + 1)).length = (3 + level / 2) * 7
  ∧ allDead (spawn_wave ew eh jit (level + 1)) = false
  ∧ waveSpeed (level + 1) = 45 + (level : ℚ) * 8
  ∧ (spawn_wave ew eh jit 1).length = 21
  ∧ (spawn_wave ew eh jit 2).length = 21 := by
  refine ⟨?_, ?_, ?_, spawn_wave_not_dead ew eh jit (level + 1), ?_, ?_, ?_⟩
  · intro hdead
    simp [waveCheck, hdead]
  · intro hlive
    simp [waveCheck, hlive]
  · rw [spawn_wave_length]
    simp
  · unfold waveSpeed
    push_cast
    ring
  · rw [spawn_wave_length]
  · rw [spawn_wave_length]

/-- Witness for C5: a single dead enemy at level 1 triggers exactly the
advance to level 2 with a fresh 21-enemy wave at 53 px/s. -/
theorem wave_advance_witness :
    waveCheck 40 30 (fun _ => 0) 1 [⟨80, 50, ⟨80, 50, 40, 30⟩, false⟩] 1 45 =
      (2, spawn_wave 40 30 (fun _ => 0) 2, 1, waveSpeed 2) :=
  (wave_advance 40 30 (fun _ => 0) 1 [⟨80, 50, ⟨80, 50, 40, 30⟩, false⟩] 1
      45).1 rfl

/-- Counterexample for C5 as stated: clearing level 1 yields a level-2
formation of 21 enemies, not 28. -/
theorem wave_advance_counterexample :
    (waveCheck 40 30 (fun _ => 0) 1 [⟨80, 50, ⟨80, 50, 40, 30⟩, false⟩] 1
        45).1 = 2
  ∧ ((waveCheck 40 30 (fun _ => 0) 1 [⟨80, 50, ⟨80, 50, 40, 30⟩, false⟩] 1
        45).2.1).length = 21
  ∧ ¬ ((waveCheck 40 30 (fun _ => 0) 1 [⟨80, 50, ⟨80, 50, 40, 30⟩, false⟩] 1
        45).2.1).length = 28 := by
  have h : waveCheck 40 30 (fun _ => 0) 1
      [⟨80, 50, ⟨80, 50, 40, 30⟩, false⟩] 1 45 =
      (2, spawn_wave 40 30 (fun _ => 0) 2, 1, waveSpeed 2) := by
    simp [waveCheck, allDead]
  rw [h]
  refine ⟨rfl, ?_, ?_⟩
  · rw [spawn_wave_length]
  · rw [spawn_wave_length]
    simp

/-- Player-bullet collisions only ever add to the score. -/
lemma collidePlayerBullets_score_mono (bs : List Bullet) (es : List Enemy)
    (score : ℤ) : score ≤ (collidePlayerBullets bs es score).2.2 := by
  induction bs generalizing es score with
  | nil => simp [collidePlayerBullets]
  | cons b rest ih =>
      cases hkf : killFirst b.rect es with
      | some es1 =>
          calc score ≤ score + 10 := by linarith
            _ ≤ (collidePlayerBullets rest es1 (score + 10)).2.2 :=
                ih es1 (score + 10)
            _ = (collidePlayerBullets (b :: rest) es score).2.2 := by
                simp [collidePlayerBullets, hkf]
      | none =>
          calc score ≤ (collidePlayerBullets rest es score).2.2 := ih es score
            _ = (collidePlayerBullets (b :: rest) es score).2.2 := by
                simp [collidePlayerBullets, hkf]

/-- The wave check never lowers the level. -/
lemma waveCheck_level_le (ew eh : ℤ) (jit : ℕ → ℚ) (level : ℕ)
    (es : List Enemy) (dir : ℤ) (speed : ℚ) :
    level ≤ (waveCheck ew eh jit level es dir speed).1 := by
  unfold waveCheck
  split <;> simp

/-- C7: within a play session, score and level never decrease under any
tick of the game loop, and the pause toggle changes neither; only the
explicit reset restores `score = 0` and `level = 1`, clearing both
bullet lists and regenerating the first wave. -/
theorem score_level_monotone (ew eh : ℤ) (jit : ℕ → ℚ) (gs : GameState)
    (dt : ℚ) (xn : Option ℚ) (shoot : Bool) (now : ℚ) (efire : Bool)
    (pick : ℕ) :
    gs.score ≤ (tick ew eh jit gs dt xn shoot now efire pick).score
  ∧ gs.level ≤ (tick ew eh jit gs dt xn shoot now efire pick).level
  ∧ (togglePause gs).score = gs.score
  ∧ (togglePause gs).level = gs.level
  ∧ (reset ew eh jit gs).score = 0
  ∧ (reset ew eh jit gs).level = 1
  ∧ (reset ew eh jit gs).bullets = []
  ∧ (reset ew eh jit gs).enemyBullets = []
  ∧ (reset ew eh jit gs).enemies = spawn_wave ew eh jit 1
  ∧ (reset ew eh jit gs).enemySpeed = waveSpeed 1 := by
  refine ⟨?_, ?_, rfl, rfl, rfl, rfl, rfl, rfl, rfl, rfl⟩
  · by_cases hp : gs.paused
    · simp [tick, hp]
    · simp only [tick, hp, Bool.false_eq_true, if_false]
      exact collidePlayerBullets_score_mono _ _ _
  · by_cases hp : gs.paused
    · simp [tick, hp]
    · simp only [tick, hp, Bool.false_eq_true, if_false]
      exact waveCheck_level_le _ _ _ _ _ _ _

/-- Once `game_over()` has set both flags, the rest of the enemy-bullet
pass keeps them set. -/
lemma collideEnemyBullets_flags_stay (pr : Rect) :
    ∀ (ebs : List Bullet) (lives : ℤ),
      (collideEnemyBullets pr ebs lives true true).2.2.1 = true
    ∧ (collideEnemyBullets pr ebs lives true true).2.2.2 = true := by
  intro ebs
  induction ebs with
  | nil => intro lives; simp [collideEnemyBullets]
  | cons b rest ih =>
      intro lives
      by_cases hc : colliderect b.rect pr
      · by_cases hl : lives - 1 ≤ 0
        · simpa [collideEnemyBullets, hc, hl] using ih (lives - 1)
        · simpa [collideEnemyBullets, hc, hl] using ih (lives - 1)
      · simpa [collideEnemyBullets, hc] using ih lives

/-- If the player has at most one life and some enemy bullet of the
pass collides with the player's rect, the pass ends with
`game_over_flag = true` and `paused = true`. -/
lemma game_over_on_hit (pr : Rect) :
    ∀ (ebs : List Bullet) (lives : ℤ) (flag paused : Bool),
      (∃ b ∈ ebs, colliderect b.rect pr = true) → lives ≤ 1 →
      (collideEnemyBullets pr ebs lives flag paused).2.2.1 = true
    ∧ (collideEnemyBullets pr ebs lives flag paused).2.2.2 = true := by
  intro ebs
  induction ebs with
  | nil =>
      intro lives flag paused hhit _
      simp at hhit
  | cons b rest ih =>
      intro lives flag paused hhit hl
      by_cases hc : colliderect b.rect pr
      · have hl1 : lives - 1 ≤ 0 := by omega
        simpa [collideEnemyBullets, hc, hl1] using
          collideEnemyBullets_flags_stay pr rest (lives - 1)
      · obtain ⟨b1, hb1, hcb1⟩ := hhit
        rcases List.mem_cons.mp hb1 with rfl | hmem
        · exact absurd hcb1 (by simpa using hc)
        · simpa [collideEnemyBullets, hc] using
            ih lives flag paused ⟨b1, hmem, hcb1⟩ hl

/-- C1 (amended): when an enemy-bullet hit drops the last life, the
collision pass of that same tick sets `game_over_flag` and pauses the
game; a paused tick applies no enemy/bullet updates at all; an explicit
reset (and only it among the three control events) clears both the
game-over flag and the pause; but the pause toggle merely flips
`paused` while leaving `game_over_flag` set, so after pressing the
pause toggle in the game-over state the simulation resumes without any
reset. -/
theorem game_over_behaviour (ew eh : ℤ) (jit : ℕ → ℚ) (gs : GameState)
    (dt : ℚ) (xn : Option ℚ) (shoot : Bool) (now : ℚ) (efire : Bool)
    (pick : ℕ) (pr : Rect) (ebs : List Bullet) (lives : ℤ)
    (flag paused : Bool) :
    ((∃ b ∈ ebs, colliderect b.rect pr = true) → lives ≤ 1 →
       (collideEnemyBullets pr ebs lives flag paused).2.2.1 = true
     ∧ (collideEnemyBullets pr ebs lives flag paused).2.2.2 = true)
  ∧ (gs.paused = true → tick ew eh jit gs dt xn shoot now efire pick = gs)
  ∧ (reset ew eh jit gs).gameOverFlag = false
  ∧ (reset ew eh jit gs).paused = false
  ∧ (togglePause gs).paused = !gs.paused
  ∧ (togglePause gs).gameOverFlag = gs.gameOverFlag := by
  refine ⟨game_over_on_hit pr ebs lives flag paused, ?_, rfl, rfl, rfl, rfl⟩
  intro hp
  simp [tick, hp]

/-- Witness for C1's amended theorem: one colliding enemy bullet on a
one-life player raises both flags, and a paused tick is the identity. -/
theorem game_over_behaviour_witness :
    ((collideEnemyBullets ⟨400, 604, 100, 66⟩ [⟨⟨447, 644, 6, 12⟩, 4⟩] 1
        false false).2.2.1 = true
   ∧ (collideEnemyBullets ⟨400, 604, 100, 66⟩ [⟨⟨447, 644, 6, 12⟩, 4⟩] 1
        false false).2.2.2 = true)
  ∧ tick 40 30 (fun _ => 0)
      ⟨3, 0, 1, [], [], [], 1, 45, true, false, 450, 0⟩
      (1/100) none false 1 false 0 =
      ⟨3, 0, 1, [], [], [], 1, 45, true, false, 450, 0⟩ :=
  ⟨(game_over_behaviour 40 30 (fun _ => 0)
      ⟨3, 0, 1, [], [], [], 1, 45, true, false, 450, 0⟩
      (1/100) none false 1 false 0 ⟨400, 604, 100, 66⟩
      [⟨⟨447, 644, 6, 12⟩, 4⟩] 1 false false).1
      ⟨⟨⟨447, 644, 6, 12⟩, 4⟩, by simp, by decide⟩ (by norm_num),
   (game_over_behaviour 40 30 (fun _ => 0)
      ⟨3, 0, 1, [], [], [], 1, 45, true, false, 450, 0⟩
      (1/100) none false 1 false 0 ⟨400, 604, 100, 66⟩
      [⟨⟨447, 644, 6, 12⟩, 4⟩] 1 false false).2.1 rfl⟩

/-- Counterexample for C1 as stated: a one-life player is hit and the
session enters GameOver (both flags set) on that tick — but pressing
the pause toggle (no reset) lets the next tick move the enemies
again, so GameOver is not terminal until explicit reset and the
GameOver-to-running transition can happen via the pause toggle. -/
theorem game_over_not_terminal :
    (tick 40 30 (fun _ => 0)
        ⟨1, 0, 1, [], [⟨⟨447, 640, 6, 12⟩, 4⟩],
         [⟨80, 50, ⟨80, 50, 40, 30⟩, true⟩], 1, 45, false, false, 450, 0⟩
        (1/100) none false 1 false 0).gameOverFlag = true
  ∧ (tick 40 30 (fun _ => 0)
        ⟨1, 0, 1, [], [⟨⟨447, 640, 6, 12⟩, 4⟩],
         [⟨80, 50, ⟨80, 50, 40, 30⟩, true⟩], 1, 45, false, false, 450, 0⟩
        (1/100) none false 1 false 0).paused = true
  ∧ (tick 40 30 (fun _ => 0)
        ⟨1, 0, 1, [], [⟨⟨447, 640, 6, 12⟩, 4⟩],
         [⟨80, 50, ⟨80, 50, 40, 30⟩, true⟩], 1, 45, false, false, 450, 0⟩
        (1/100) none false 1 false 0).lives = 0
  ∧ (tick 40 30 (fun _ => 0)
        (togglePause (tick 40 30 (fun _ => 0)
          ⟨1, 0, 1, [], [⟨⟨447, 640, 6, 12⟩, 4⟩],
           [⟨80, 50, ⟨80, 50, 40, 30⟩, true⟩], 1, 45, false, false, 450, 0⟩
          (1/100) none false 1 false 0))
        (1/100) none false 2 false 0).enemies ≠
      (tick 40 30 (fun _ => 0)
        ⟨1, 0, 1, [], [⟨⟨447, 640, 6, 12⟩, 4⟩],
         [⟨80, 50, ⟨80, 50, 40, 30⟩, true⟩], 1, 45, false, false, 450, 0⟩
        (1/100) none false 1 false 0).enemies := by
  have h1 : tick 40 30 (fun _ => 0)
      ⟨1, 0, 1, [], [⟨⟨447, 640, 6, 12⟩, 4⟩],
       [⟨80, 50, ⟨80, 50, 40, 30⟩, true⟩], 1, 45, false, false, 450, 0⟩
      (1/100) none false 1 false 0 =
      ⟨0, 0, 1, [], [], [⟨1609/20, 50, ⟨80, 50, 40, 30⟩, true⟩], 1, 45,
       true, true, 450, 0⟩ := by
    norm_num [tick, move_to, fireStep, can_shoot, PLAYER_COOLDOWN,
      Bullet.update, stepFormation, movePx, willHitEdge, MAX_DT,
      MAX_MOVE_PER_FRAME, WIDTH, HEIGHT, min_def, abs, shiftEnemy,
      dropEnemy, ratTrunc, enemyFire, collidePlayerBullets,
      collideEnemyBullets, colliderect, playerRect, waveCheck, allDead,
      killFirst]
  have h2 : tick 40 30 (fun _ => 0)
      (togglePause
        ⟨0, 0, 1, [], [], [⟨1609/20, 50, ⟨80, 50, 40, 30⟩, true⟩], 1, 45,
         true, true, 450, 0⟩)
      (1/100) none false 2 false 0 =
      ⟨0, 0, 1, [], [], [⟨809/10, 50, ⟨80, 50, 40, 30⟩, true⟩], 1, 45,
       false, true, 450, 0⟩ := by
    norm_num [tick, togglePause, move_to, fireStep, can_shoot,
      PLAYER_COOLDOWN, Bullet.update, stepFormation, movePx, willHitEdge,
      MAX_DT, MAX_MOVE_PER_FRAME, WIDTH, HEIGHT, min_def, abs, shiftEnemy,
      dropEnemy, ratTrunc, enemyFire, collidePlayerBullets,
      collideEnemyBullets, colliderect, playerRect, waveCheck, allDead,
      killFirst]
  rw [h1]
  refine ⟨rfl, rfl, rfl, ?_⟩
  rw [h2]
  simp only [ne_eq, List.cons.injEq, Enemy.mk.injEq, and_true, true_and,
    not_and]
  intro hfx
  norm_num at hfx

end GSI
